import Mathlib

/-!
# Verification of the Alphin gasless-vote relay

Shallow embedding of the blockchain module of the Alphin Telegram DAO bot
(`src/modules/blockchain/blockchainService.js`, second `BlockchainService`
class, the one exported by the module) together with the Telegram error
sanitizer (`src/modules/commands/telegramFormatter.js`).

Chain interactions are modelled by an environment record holding, for each
RPC entry point the code may call during one request, the value that call
returns (or the error message it throws).  Each embedded operation returns
its result together with the list of chain calls it performed, so that
claims about *which* entry points are exercised (tier ordering, signature
construction, snapshot reads) are statements about that trace.
-/

/-- JavaScript `String.prototype.includes` on character lists. -/
def jsIncludes (hay pat : List Char) : Bool := decide (pat <:+: hay)

/-- JavaScript `String.prototype.includes` on strings. -/
def strIncludes (hay pat : String) : Bool := jsIncludes hay.toList pat.toList

/-- JavaScript `String.prototype.substring(0, n)` (clamping like JS). -/
def jsSubstringTo (s : String) (n : Nat) : String :=
  String.mk (s.toList.take n)

/-- An EIP-712 signing domain, as built by the service. -/
structure Eip712Domain where
  name : String
  version : String
  chainId : Nat
  verifyingContract : String
deriving DecidableEq, Repr

/-- The typed value placed under an EIP-712 domain: either a governor
`Ballot {proposalId, support}` or a token `Delegation {delegatee, nonce,
expiry}`. -/
inductive TypedValue where
  | ballot (proposalId : Nat) (support : Nat)
  | delegation (delegatee : String) (nonce : Nat) (expiry : Nat)
deriving DecidableEq, Repr

/-- One chain interaction performed by the service during a request.
The constructors cover every contract/provider entry point the source
calls; the two submission constructors that the three-tier design would
need for its lower tiers (`submitDirectCastVote` for a user-paid
`castVote`, `submitAdminCastVote` for an admin-identity `castVote`) are
part of the vocabulary so that their absence from a trace is a
meaningful statement. -/
inductive ChainCall where
  /-- `governorContract.state(proposalId)` -/
  | readProposalState
  /-- `governorContract.callStatic.castVote(proposalId, 1, {from})` -/
  | staticCastVote (voter : String)
  /-- `governorContract.proposalSnapshot(proposalId)` -/
  | readSnapshot
  /-- `governorContract.getVotes(voter, block)` -/
  | readVotes (voter : String) (block : Nat)
  /-- `tokenContract.balanceOf(addr)` (current balance; never used by the
  voting-power check) -/
  | readBalance (addr : String)
  /-- `provider.getNetwork().chainId` -/
  | readChainId
  /-- `governorContract.name()` -/
  | readGovernorName
  /-- `tokenContract.name()` -/
  | readTokenName
  /-- `tokenContract.nonces(addr)` -/
  | readNonce (addr : String)
  /-- `wallet._signTypedData(domain, types, value)` by the wallet whose
  address is `signer` -/
  | signTypedData (signer : String) (domain : Eip712Domain) (value : TypedValue)
  /-- `estimateGas` on the signature-based vote/delegation entry point -/
  | estimateGas
  /-- Tier 1 submission: `castVoteBySig` sent by `sender` with `gasLimit` -/
  | submitCastVoteBySig (sender : String) (gasLimit : Nat)
  /-- Tier 2 submission (never emitted by the source): a plain `castVote`
  transaction signed and paid by the user -/
  | submitDirectCastVote (sender : String)
  /-- Tier 3 submission (never emitted by the source): `castVote` or a
  vote-on-behalf entry point sent from the admin wallet -/
  | submitAdminCastVote (sender : String)
  /-- `tokenContract.delegateBySig(...)` sent by `sender` with `gasLimit` -/
  | submitDelegateBySig (sender : String) (gasLimit : Nat)
  /-- `tx.wait()` -/
  | waitReceipt
deriving DecidableEq, Repr

/-- Result-with-trace monad: an `Except`ion value (JavaScript `throw`
carries the error's `message` string) paired with the chain calls made. -/
def TraceM (α : Type) := Except String α × List ChainCall

/-- Lift a single chain call returning `r` into the monad. -/
def callM {α : Type} (ev : ChainCall) (r : Except String α) : TraceM α := (r, [ev])

/-- `pure`: no calls, a value. -/
def pureM {α : Type} (a : α) : TraceM α := (Except.ok a, [])

/-- `throw`: no calls, an error. -/
def throwM {α : Type} (e : String) : TraceM α := (Except.error e, [])

/-- Sequencing: an error short-circuits (a thrown exception propagates),
traces accumulate. -/
def bindM {α β : Type} (x : TraceM α) (f : α → TraceM β) : TraceM β :=
  match x with
  | (Except.error e, t) => (Except.error e, t)
  | (Except.ok a, t) =>
    match f a with
    | (r, t2) => (r, t ++ t2)

/-- JavaScript `try/catch`: the handler receives the thrown message. -/
def catchM {α : Type} (x : TraceM α) (h : String → TraceM α) : TraceM α :=
  match x with
  | (Except.ok a, t) => (Except.ok a, t)
  | (Except.error e, t) =>
    match h e with
    | (r, t2) => (r, t ++ t2)

@[simp] theorem bindM_call {α β : Type} (ev : ChainCall) (r : Except String α)
    (f : α → TraceM β) :
    bindM (callM ev r) f =
      (match r with
       | Except.error e => (Except.error e, [ev])
       | Except.ok a => ((f a).1, ev :: (f a).2)) := by
  cases r with
  | error e => rfl
  | ok a =>
    show bindM (Except.ok a, [ev]) f = _
    obtain ⟨r2, t2⟩ := f a
    rfl

@[simp] theorem bindM_pure {α β : Type} (a : α) (f : α → TraceM β) :
    bindM (pureM a) f = f a := by
  show bindM (Except.ok a, []) f = f a
  rcases hfa : f a with ⟨r2, t2⟩
  simp [bindM, hfa]

@[simp] theorem bindM_throw {α β : Type} (e : String) (f : α → TraceM β) :
    bindM (throwM e) f = (Except.error e, []) := by
  rfl

@[simp] theorem catchM_pure {α : Type} (a : α) (h : String → TraceM α) :
    catchM (pureM a) h = pureM a := by
  rfl

@[simp] theorem catchM_throw {α : Type} (e : String) (h : String → TraceM α) :
    catchM (throwM e) h = h e := by
  show catchM (Except.error e, []) h = h e
  rcases hhe : h e with ⟨r2, t2⟩
  simp [catchM, hhe]

/-- Decidable equality for `Except` values, needed to evaluate the
embedding at concrete environments. -/
instance {e a : Type} [DecidableEq e] [DecidableEq a] :
    DecidableEq (Except e a) := fun x y =>
  match x, y with
  | Except.ok u, Except.ok v => decidable_of_iff (u = v) (by simp)
  | Except.error u, Except.error v => decidable_of_iff (u = v) (by simp)
  | Except.ok _, Except.error _ => isFalse (by simp)
  | Except.error _, Except.ok _ => isFalse (by simp)

/-- A mined transaction receipt, as consumed by the service
(`receipt.transactionHash`, `receipt.blockNumber`, `receipt.status`). -/
structure Receipt where
  transactionHash : String
  blockNumber : Nat
  status : Nat
deriving DecidableEq, Repr

/-- Responses of the chain to the RPC entry points one `voteOnProposal`
request may hit.  An `Except.error m` field means that call throws with
message `m`. -/
structure VoteEnv where
  /-- `governorContract.state(proposalId)` -/
  stateCall : Except String Nat
  /-- `governorContract.callStatic.castVote(proposalId, 1, {from: voter})` -/
  staticCastVote : Except String Unit
  /-- `governorContract.proposalSnapshot(proposalId)` -/
  snapshotCall : Except String Nat
  /-- `governorContract.getVotes(voter, block)`, per queried block -/
  votesAt : Nat → Except String Nat
  /-- `tokenContract.balanceOf(voter)` (present in the environment so that
  independence from the current balance is expressible; the relay's
  voting-power check never queries it) -/
  balanceOf : Nat
  /-- `provider.getNetwork().chainId` -/
  chainIdCall : Except String Nat
  /-- `governorContract.name()` -/
  governorNameCall : Except String String
  /-- `estimateGas.castVoteBySig(...)` -/
  gasEstimateCall : Except String Nat
  /-- `castVoteBySig(...)` submission at a given gas limit -/
  submitWithGas : Nat → Except String Unit
  /-- `tx.wait()` -/
  waitCall : Except String Receipt
  /-- The governor contract address (`this.governorAddress`). -/
  governorAddress : String
  /-- The relay wallet address (`this.adminWallet.address`). -/
  adminAddress : String
  /-- `Date.now()` at entry (used only for the mock hash of the
  blockchain-disabled path). -/
  now : Nat

/-- The service configuration, as destructured by the constructor.  A
`none` field models a JavaScript `undefined`. -/
structure ServiceConfig where
  rpcUrl : Option String
  tokenAddress : Option String
  governorAddress : Option String
  adminPrivateKey : Option String
deriving DecidableEq, Repr

/-- JavaScript truthiness of a possibly-undefined string. -/
def jsTruthy : Option String → Bool
  | none => false
  | some s => !(s = "")

/-- `this.blockchainEnabled = !!(rpcUrl && tokenAddress && governorAddress
&& adminPrivateKey && adminPrivateKey !== 'your_admin_wallet_private_key')`
(constructor of `BlockchainService`). -/
def blockchainEnabled (cfg : ServiceConfig) : Bool :=
  jsTruthy cfg.rpcUrl && jsTruthy cfg.tokenAddress &&
    jsTruthy cfg.governorAddress && jsTruthy cfg.adminPrivateKey &&
    !(cfg.adminPrivateKey = some "your_admin_wallet_private_key")

/-- The structured result of one vote attempt; optional fields model the
JavaScript object's possibly-absent properties. -/
structure VoteResult where
  success : Bool
  method : String
  txHash : Option String
  blockNumber : Option Nat
  error : Option String
deriving DecidableEq, Repr

/-- `['Pending', 'Active', 'Canceled', 'Defeated', 'Succeeded', 'Queued',
'Expired', 'Executed']` — the lookup table used by `validateProposalState`;
an out-of-range index renders as `undefined` in the template string. -/
def stateNames : List String :=
  ["Pending", "Active", "Canceled", "Defeated", "Succeeded", "Queued",
   "Expired", "Executed"]

/-- `validateProposalState(proposalId)`: reads the proposal state and
throws unless it is `1` (Active). -/
def validateProposalState (env : VoteEnv) : TraceM Unit :=
  bindM (callM ChainCall.readProposalState env.stateCall) fun st =>
    if st = 1 then pureM ()
    else throwM ("Proposal is not in active state. Current state: " ++
      stateNames.getD st "undefined")

/-- `simulateVote(proposalId, voterAddress)`: static-calls `castVote`; a
revert whose message matches an already-voted pattern becomes a thrown
`'User has already voted on this proposal'`, any other simulation error is
logged and swallowed. -/
def simulateVote (env : VoteEnv) (voter : String) : TraceM Unit :=
  catchM (callM (ChainCall.staticCastVote voter) env.staticCastVote)
    fun m =>
      if strIncludes m "already cast vote" || strIncludes m "AlreadyCast" ||
          strIncludes m "already voted" then
        throwM "User has already voted on this proposal"
      else pureM ()

/-- `checkVotingPowerAtSnapshot(proposalId, voterAddress)`: reads the
proposal's snapshot block, then the voter's power at that block, and
throws when that power is zero. -/
def checkVotingPowerAtSnapshot (env : VoteEnv) (voter : String) : TraceM Unit :=
  bindM (callM ChainCall.readSnapshot env.snapshotCall) fun snapshotBlock =>
    bindM (callM (ChainCall.readVotes voter snapshotBlock)
        (env.votesAt snapshotBlock)) fun votingPower =>
      if votingPower = 0 then
        throwM ("User had no voting power at the proposal snapshot. " ++
          "Make sure tokens were delegated before the proposal was created.")
      else pureM ()

/-- `validateUserVotingPower(proposalId, voterAddress)`: already-voted
check, then voting-power check. -/
def validateUserVotingPower (env : VoteEnv) (voter : String) : TraceM Unit :=
  bindM (simulateVote env voter) fun _ =>
    checkVotingPowerAtSnapshot env voter

/-- JavaScript `error.message.split(':').pop().trim()`. -/
def lastColonSegment (s : String) : String :=
  ((s.splitOn ":").getLastD "").trim

/-- The gas-estimation-with-fallback submission of `castVoteBySig`: a
`try` around estimation plus submission at the buffered estimate, whose
`catch` (also hit when the first submission itself throws) retries at the
fixed 1,000,000 gas limit. -/
def gasFallbackVoteSubmit (env : VoteEnv) : TraceM Unit :=
  catchM
    (bindM (callM ChainCall.estimateGas env.gasEstimateCall) fun g =>
      callM (ChainCall.submitCastVoteBySig env.adminAddress (g * 12 / 10))
        (env.submitWithGas (g * 12 / 10)))
    (fun _ =>
      callM (ChainCall.submitCastVoteBySig env.adminAddress 1000000)
        (env.submitWithGas 1000000))

/-- The raw (pre-catch) body of `voteWithMetaTransaction`: domain from the
governor contract, `Ballot {proposalId, support}` typed value, signature
by the user's wallet, submission of `castVoteBySig` by the admin wallet
through the gas fallback, then receipt wait. -/
def voteWithMetaTransactionBody (env : VoteEnv) (userAddress : String)
    (proposalId voteType : Nat) : TraceM VoteResult :=
  bindM (callM ChainCall.readChainId env.chainIdCall) fun chainId =>
    bindM (callM ChainCall.readGovernorName env.governorNameCall) fun governorName =>
      let domain : Eip712Domain :=
        { name := governorName, version := "1", chainId := chainId,
          verifyingContract := env.governorAddress }
      let value := TypedValue.ballot proposalId voteType
      bindM (callM (ChainCall.signTypedData userAddress domain value)
          (Except.ok ())) fun _ =>
        bindM (gasFallbackVoteSubmit env)
          fun _ =>
            bindM (callM ChainCall.waitReceipt env.waitCall) fun receipt =>
              pureM { success := receipt.status = 1,
                      method := "",
                      txHash := some receipt.transactionHash,
                      blockNumber := some receipt.blockNumber,
                      error := none }

/-- `voteWithMetaTransaction(userWallet, proposalId, voteType)`: the body
above with its catch clause, which rewrites `'execution reverted'` errors
into `'Vote failed: <revert reason>'` and rethrows everything else. -/
def voteWithMetaTransaction (env : VoteEnv) (userAddress : String)
    (proposalId voteType : Nat) : TraceM VoteResult :=
  catchM (voteWithMetaTransactionBody env userAddress proposalId voteType)
    fun e =>
      if strIncludes e "execution reverted" then
        throwM ("Vote failed: " ++
          (if strIncludes e ":" then lastColonSegment e else "Transaction reverted"))
      else throwM e

/-- `handleVoteError(error)`: maps an exception escaping the validation
phase to a user-facing structured failure. -/
def handleVoteError (msg : String) : VoteResult :=
  if strIncludes msg "not in active state" then
    { success := false, method := "validation", txHash := none,
      blockNumber := none,
      error := some "This proposal is not currently active for voting" }
  else if strIncludes msg "already voted" || strIncludes msg "AlreadyCast" ||
      strIncludes msg "already cast vote" then
    { success := false, method := "validation", txHash := none,
      blockNumber := none,
      error := some "You have already voted on this proposal" }
  else if strIncludes msg "no voting power" then
    { success := false, method := "validation", txHash := none,
      blockNumber := none,
      error := some ("You had no voting power at the time this proposal " ++
        "was created. Make sure your tokens were delegated before the " ++
        "proposal was created.") }
  else
    { success := false, method := "system-error", txHash := none,
      blockNumber := none,
      error := some ("System error: " ++ jsSubstringTo msg 100) }

/-- The enabled-path body of `voteOnProposal`: validation, then the
meta-transaction attempt with its two catch layers. -/
def voteOnProposalM (env : VoteEnv) (userAddress : String)
    (proposalId voteType : Nat) : TraceM VoteResult :=
  catchM
    (bindM (validateProposalState env) fun _ =>
      bindM (validateUserVotingPower env userAddress) fun _ =>
        catchM
          (bindM (voteWithMetaTransaction env userAddress proposalId voteType)
            fun metaTxResult =>
              pureM { metaTxResult with success := true,
                                        method := "meta-transaction" })
          (fun e =>
            if strIncludes e "already cast" || strIncludes e "AlreadyCast" ||
                strIncludes e "already voted" then
              pureM { success := false, method := "validation",
                      txHash := none, blockNumber := none,
                      error := some "You have already voted on this proposal" }
            else
              pureM { success := false, method := "all-methods-failed",
                      txHash := none, blockNumber := none,
                      error := some e }))
    (fun e => pureM (handleVoteError e))

/-- `voteOnProposal(userWallet, proposalId, voteType)`: the disabled-path
simulation short-circuit, else the enabled-path body.  The outer catch of
the body always produces a value, so the error branch of the final match
is unreachable; it is kept total by reusing `handleVoteError`. -/
def voteOnProposal (cfg : ServiceConfig) (env : VoteEnv) (userAddress : String)
    (proposalId voteType : Nat) : VoteResult × List ChainCall :=
  if blockchainEnabled cfg = false then
    ({ success := true, method := "simulation",
       txHash := some ("mock-" ++ Nat.repr env.now),
       blockNumber := none, error := none }, [])
  else
    match voteOnProposalM env userAddress proposalId voteType with
    | (Except.ok r, t) => (r, t)
    | (Except.error e, t) => (handleVoteError e, t)

/-- Responses of the chain to the RPC entry points one `delegateVotesBySig`
request may hit. -/
structure DelegEnv where
  /-- Whether `this.blockchainEnabled` holds. -/
  enabled : Bool
  /-- `tokenContract.nonces(delegatorAddress)` -/
  nonceCall : Except String Nat
  /-- `Date.now()` in milliseconds at entry. -/
  nowMs : Nat
  /-- `provider.getNetwork().chainId` -/
  chainIdCall : Except String Nat
  /-- `tokenContract.name()` -/
  tokenNameCall : Except String String
  /-- `estimateGas.delegateBySig(...)` -/
  gasEstimateCall : Except String Nat
  /-- `delegateBySig(...)` submission at a given gas limit -/
  submitWithGas : Nat → Except String Unit
  /-- `tx.wait()` -/
  waitCall : Except String Receipt
  /-- The token contract address (`this.tokenAddress`). -/
  tokenAddress : String
  /-- The relay wallet address (`this.adminWallet.address`). -/
  adminAddress : String

/-- The structured result of a delegation attempt. -/
structure DelegResult where
  status : String
  txHash : Option String
  blockNumber : Option Nat
  method : Option String
  message : Option String
  delegationError : Bool
deriving DecidableEq, Repr

/-- JavaScript `String.prototype.toLowerCase` (ASCII fragment). -/
def jsToLower (s : String) : String := String.mk (s.toList.map Char.toLower)

/-- The raw (pre-catch) body of `delegateVotesBySig`: nonce read, expiry
one hour ahead, token-contract EIP-712 domain (token name falls back to
`'Token'` when the name read throws), `Delegation {delegatee, nonce,
expiry}` typed value.  The signing wallet is `this.adminWallet` on *both*
branches of the source's `if` (the non-admin branch carries a
`NOT FOR PRODUCTION` warning comment); submission goes through the
admin-connected token contract's `delegateBySig` with estimated gas,
falling back to the fixed 1,000,000 limit. -/
def delegateVotesBySigBody (env : DelegEnv) (delegatorAddress delegateeAddress : String) :
    TraceM DelegResult :=
  bindM (callM (ChainCall.readNonce delegatorAddress) env.nonceCall) fun nonce =>
    let expiry := env.nowMs / 1000 + 3600
    bindM (callM ChainCall.readChainId env.chainIdCall) fun chainId =>
      bindM
        (catchM (callM ChainCall.readTokenName env.tokenNameCall)
          (fun _ => pureM "Token")) fun tokenName =>
        let domain : Eip712Domain :=
          { name := tokenName, version := "1", chainId := chainId,
            verifyingContract := env.tokenAddress }
        let value := TypedValue.delegation delegateeAddress nonce expiry
        let signerAddress :=
          if jsToLower delegatorAddress = jsToLower env.adminAddress then
            env.adminAddress
          else
            env.adminAddress
        bindM (callM (ChainCall.signTypedData signerAddress domain value)
            (Except.ok ())) fun _ =>
          bindM
            (catchM
              (bindM (callM ChainCall.estimateGas env.gasEstimateCall) fun g =>
                callM (ChainCall.submitDelegateBySig env.adminAddress (g * 12 / 10))
                  (env.submitWithGas (g * 12 / 10)))
              (fun _ =>
                callM (ChainCall.submitDelegateBySig env.adminAddress 1000000)
                  (env.submitWithGas 1000000)))
            fun _ =>
              bindM (callM ChainCall.waitReceipt env.waitCall) fun receipt =>
                pureM { status := "success",
                        txHash := some receipt.transactionHash,
                        blockNumber := some receipt.blockNumber,
                        method := some "meta-transaction",
                        message := none,
                        delegationError := false }

/-- `delegateVotesBySig(delegatorAddress, delegateeAddress)`: disabled
short-circuit, then the body with its catch clause, which converts any
thrown error into a structured `meta-transaction-failed` result. -/
def delegateVotesBySig (env : DelegEnv) (delegatorAddress delegateeAddress : String) :
    DelegResult × List ChainCall :=
  if env.enabled = false then
    ({ status := "error", txHash := none, blockNumber := none,
       method := none, message := some "Blockchain features are disabled",
       delegationError := false }, [])
  else
    match delegateVotesBySigBody env delegatorAddress delegateeAddress with
    | (Except.ok r, t) => (r, t)
    | (Except.error e, t) =>
      ({ status := "error", txHash := none, blockNumber := none,
         method := some "meta-transaction-failed",
         message := some ("Failed to delegate votes: " ++ e),
         delegationError := true }, t)

/-- The raw proposal record read by the fallback path of
`getProposalState` (`governor.proposals(proposalId)`). -/
structure RawProposal where
  startBlock : Nat
  endBlock : Nat
  forVotes : Nat
  againstVotes : Nat
deriving DecidableEq, Repr

/-- Environment for one `getProposalState` request. -/
structure StateEnv where
  /-- `this.blockchainEnabled` -/
  enabled : Bool
  /-- whether `this.governorAbi` is set -/
  hasGovernorAbi : Bool
  /-- `governor.state(proposalId)` (primary read) -/
  stateCall : Except String Nat
  /-- `governor.proposals(proposalId)` (secondary read) -/
  proposalsCall : Except String RawProposal
  /-- `provider.getBlockNumber()` -/
  currentBlockCall : Except String Nat

/-- `getProposalStateDescription(stateNum)`: ordinal-to-name mapping with
`'Unknown'` for out-of-range ordinals (`states[stateNum] || 'Unknown'`). -/
def getProposalStateDescription (stateNum : Nat) : String :=
  stateNames.getD stateNum "Unknown"

/-- `getProposalState(proposalId)`: mock `'Active'` when disabled,
`'Unknown'` without an ABI; primary `state()` read mapped through the
ordinal table; on a primary-read error, the secondary inference from raw
proposal fields and the current block height; `'Unknown'` when the
secondary path also fails. -/
def getProposalState (env : StateEnv) : String :=
  if env.enabled = false then "Active"
  else if env.hasGovernorAbi = false then "Unknown"
  else
    match env.stateCall with
    | Except.ok stateNum => getProposalStateDescription stateNum
    | Except.error _ =>
      match env.proposalsCall with
      | Except.ok proposal =>
        match env.currentBlockCall with
        | Except.ok currentBlock =>
          if currentBlock < proposal.startBlock then "Pending"
          else if currentBlock ≥ proposal.startBlock ∧ currentBlock ≤ proposal.endBlock then
            "Active"
          else if proposal.forVotes > proposal.againstVotes then "Succeeded"
          else "Defeated"
        | Except.error _ => "Unknown"
      | Except.error _ => "Unknown"

/-- JavaScript regex `\s` (ASCII fragment: space, tab, LF, VT, FF, CR). -/
def isJsWs (c : Char) : Bool :=
  c = ' ' || c = '\t' || c = '\n' || c = Char.ofNat 11 || c = Char.ofNat 12 ||
    c = '\r'

/-- The character class `[_*[\]()~`>#+=\-|{}.!]` of the sanitizer's
Markdown-stripping step (the backtick is written by code point). -/
def isSpecialMd (c : Char) : Bool :=
  c = '_' || c = '*' || c = '[' || c = ']' || c = '(' || c = ')' ||
    c = '~' || c = Char.ofNat 96 || c = '>' || c = '#' || c = '+' ||
    c = '=' || c = '-' || c = '|' || c = '{' || c = '}' || c = '.' || c = '!'

/-- Match the regex `\{[^}]+\}` at the head of `l` (after the opening
brace, already consumed by the caller): a maximal nonempty run of
non-`}` characters followed by `}`; returns the remainder. -/
def braceMatch (l : List Char) : Option (List Char) :=
  if (l.takeWhile (fun c => !(c = '}'))).isEmpty then none
  else
    match l.dropWhile (fun c => !(c = '}')) with
    | c :: rest => if c = '}' then some rest else none
    | [] => none

theorem braceMatch_length (l rest2 : List Char)
    (h : braceMatch l = some rest2) : rest2.length < l.length := by
  unfold braceMatch at h
  by_cases he : (l.takeWhile (fun c => !(c = '}'))).isEmpty
  · rw [if_pos he] at h; exact absurd h (by simp)
  · rw [if_neg he] at h
    rcases hd : l.dropWhile (fun c => !(c = '}')) with _ | ⟨c, rest⟩ <;>
      rw [hd] at h
    · exact absurd h (by simp)
    · have h2 : (if c = '}' then some rest else none) = some rest2 := h
      by_cases hc : c = '}'
      · rw [if_pos hc] at h2
        have hr : rest = rest2 := by injection h2
        have hsplit : l.takeWhile (fun c => !(c = '}')) ++ (c :: rest) = l := by
          rw [← hd]; exact List.takeWhile_append_dropWhile _ _
        have hlen := congrArg List.length hsplit
        simp [List.length_append] at hlen
        have hr2 := congrArg List.length hr
        simp at hr2
        omega
      · rw [if_neg hc] at h2
        exact absurd h2 (by simp)

/-- Fuel-driven scanner for `\{[^}]+\}` replacement; the fuel is only a
structural-recursion device, `braceMatch_length` shows a fuel equal to the
list's length never runs out. -/
def replBracesF : Nat → List Char → List Char
  | 0, l => l
  | _ + 1, [] => []
  | fuel + 1, c :: rest =>
    if c = '{' then
      match braceMatch rest with
      | some rest2 => '{' :: '.' :: '.' :: '.' :: '}' :: replBracesF fuel rest2
      | none => c :: replBracesF fuel rest
    else c :: replBracesF fuel rest

/-- `errorString.replace(/\{[^}]+\}/g, "{...}")`: leftmost scan; a match
is replaced by the literal `{...}` and scanning resumes after it. -/
def replBraces (l : List Char) : List Char := replBracesF l.length l

/-- Match the regex `\[[^\]]]+\]` after its opening `[`: one non-`]`
character, then (via the greedy `]+` and final `\]`) a run of at least two
`]`; returns the remainder. -/
def bracketMatch : List Char → Option (List Char)
  | [] => none
  | c :: rest =>
    if c = ']' then none
    else if 2 ≤ (rest.takeWhile (fun d => d = ']')).length then
      some (rest.drop (rest.takeWhile (fun d => d = ']')).length)
    else none

theorem bracketMatch_length (l rest2 : List Char)
    (h : bracketMatch l = some rest2) : rest2.length < l.length := by
  match l with
  | [] => exact absurd h (by simp [bracketMatch])
  | c :: rest =>
    have h2 : (if c = ']' then none else
        if 2 ≤ (rest.takeWhile (fun d => d = ']')).length then
          some (rest.drop (rest.takeWhile (fun d => d = ']')).length)
        else none) = some rest2 := h
    by_cases hc : c = ']'
    · rw [if_pos hc] at h2; exact absurd h2 (by simp)
    · rw [if_neg hc] at h2
      by_cases hk : 2 ≤ (rest.takeWhile (fun d => d = ']')).length
      · rw [if_pos hk] at h2
        obtain rfl : rest.drop (rest.takeWhile (fun d => d = ']')).length = rest2 := by
          injection h2
        have := List.length_drop (rest.takeWhile (fun d => d = ']')).length rest
        simp only [this, List.length_cons]
        omega
      · rw [if_neg hk] at h2; exact absurd h2 (by simp)

/-- Fuel-driven scanner for `\[[^\]]]+\]` replacement. -/
def replBracketsF : Nat → List Char → List Char
  | 0, l => l
  | _ + 1, [] => []
  | fuel + 1, c :: rest =>
    if c = '[' then
      match bracketMatch rest with
      | some rest2 => '[' :: '.' :: '.' :: '.' :: ']' :: replBracketsF fuel rest2
      | none => c :: replBracketsF fuel rest
    else c :: replBracketsF fuel rest

/-- `errorString.replace(/\[[^\]]]+\]/g, "[...]")` — note the source's
class is `[^\]]` followed by `]+\]`, so the pattern only matches a single
non-`]` character followed by two or more closing brackets. -/
def replBrackets (l : List Char) : List Char := replBracketsF l.length l

/-- The `[^\s]+` tail of the URL regex: a maximal nonempty run of
non-whitespace characters; returns the remainder. -/
def urlTail (rest : List Char) : Option (List Char) :=
  if (rest.takeWhile (fun c => !(isJsWs c))).isEmpty then none
  else some (rest.drop (rest.takeWhile (fun c => !(isJsWs c))).length)

/-- Match the regex `https?:\/\/[^\s]+` at the head of `l`: the literal
scheme (greedy optional `s`), then the nonempty non-whitespace tail. -/
def urlMatch (l : List Char) : Option (List Char) :=
  if ['h', 't', 't', 'p', 's', ':', '/', '/'].isPrefixOf l then
    urlTail (l.drop 8)
  else if ['h', 't', 't', 'p', ':', '/', '/'].isPrefixOf l then
    urlTail (l.drop 7)
  else none

theorem urlTail_length (rest rest2 : List Char)
    (h : urlTail rest = some rest2) : rest2.length ≤ rest.length := by
  unfold urlTail at h
  by_cases he : (rest.takeWhile (fun c => !(isJsWs c))).isEmpty
  · rw [if_pos he] at h; exact absurd h (by simp)
  · rw [if_neg he] at h
    obtain rfl : rest.drop (rest.takeWhile (fun c => !(isJsWs c))).length = rest2 := by
      injection h
    have := List.length_drop (rest.takeWhile (fun c => !(isJsWs c))).length rest
    omega

theorem urlMatch_length (l rest2 : List Char)
    (h : urlMatch l = some rest2) : rest2.length < l.length := by
  unfold urlMatch at h
  by_cases h8 : ['h', 't', 't', 'p', 's', ':', '/', '/'].isPrefixOf l
  · rw [if_pos h8] at h
    have hlen : 8 ≤ l.length := by
      have := List.IsPrefix.length_le (List.isPrefixOf_iff_prefix.mp h8)
      simpa using this
    have := urlTail_length (l.drop 8) rest2 h
    have hd := List.length_drop 8 l
    omega
  · rw [if_neg h8] at h
    by_cases h7 : ['h', 't', 't', 'p', ':', '/', '/'].isPrefixOf l
    · rw [if_pos h7] at h
      have hlen : 7 ≤ l.length := by
        have := List.IsPrefix.length_le (List.isPrefixOf_iff_prefix.mp h7)
        simpa using this
      have := urlTail_length (l.drop 7) rest2 h
      have hd := List.length_drop 7 l
      omega
    · rw [if_neg h7] at h
      exact absurd h (by simp)

/-- Fuel-driven scanner for URL replacement. -/
def replUrlsF : Nat → List Char → List Char
  | 0, l => l
  | _ + 1, [] => []
  | fuel + 1, c :: rest =>
    match urlMatch (c :: rest) with
    | some rest2 => 'U' :: 'R' :: 'L' :: replUrlsF fuel rest2
    | none => c :: replUrlsF fuel rest

/-- `errorString.replace(/(https?:\/\/[^\s]+)/g, "URL")`. -/
def replUrls (l : List Char) : List Char := replUrlsF l.length l

/-- `errorString.replace(/\s+/g, " ")`: each maximal whitespace run
becomes a single space. -/
def collapseWs : List Char → List Char
  | [] => []
  | [c] => [if isJsWs c then ' ' else c]
  | c :: d :: rest =>
    if isJsWs c && isJsWs d then collapseWs (d :: rest)
    else (if isJsWs c then ' ' else c) :: collapseWs (d :: rest)

/-- JavaScript `String.prototype.trim` on character lists. -/
def jsTrim (l : List Char) : List Char :=
  ((l.dropWhile isJsWs).reverse.dropWhile isJsWs).reverse

/-- The truncation step `if (errorString.length > maxLength)
errorString = errorString.substring(0, maxLength - 3) + '...'`, with the
clamping JavaScript `substring` applies to a negative bound. -/
def jsTruncate (l : List Char) (maxLength : Nat) : List Char :=
  if maxLength < l.length then l.take (maxLength - 3) ++ ['.', '.', '.'] else l

/-- The Markdown-stripping step: each character of the special class is
replaced by a space. -/
def blankSpecialMd (l : List Char) : List Char :=
  l.map (fun c => if isSpecialMd c then ' ' else c)

/-- `sanitizeErrorForTelegram(errorMsg, maxLength)` from
`telegramFormatter.js` (and its identical copy in `commandHandler.js`):
falsy input becomes `'Unknown error'`; otherwise JSON-ish brace and
bracket groups are collapsed, URLs are replaced by `URL`, the string is
truncated to `maxLength`, Markdown special characters are blanked, and
whitespace is collapsed and trimmed. -/
def sanitizeErrorForTelegram (msg : List Char) (maxLength : Nat) : List Char :=
  if msg.isEmpty then "Unknown error".toList
  else
    jsTrim (collapseWs (blankSpecialMd
      (jsTruncate (replUrls (replBrackets (replBraces msg))) maxLength)))

theorem bindM_mk_error {α β : Type} (e : String) (t : List ChainCall)
    (f : α → TraceM β) : bindM (Except.error e, t) f = (Except.error e, t) := rfl

theorem bindM_mk_ok {α β : Type} (a : α) (t : List ChainCall)
    (f : α → TraceM β) : bindM (Except.ok a, t) f = ((f a).1, t ++ (f a).2) := by
  rcases hfa : f a with ⟨r2, t2⟩
  simp [bindM, hfa]

theorem catchM_mk_ok {α : Type} (a : α) (t : List ChainCall)
    (h : String → TraceM α) : catchM (Except.ok a, t) h = (Except.ok a, t) := rfl

theorem catchM_mk_error {α : Type} (e : String) (t : List ChainCall)
    (h : String → TraceM α) :
    catchM (Except.error e, t) h = ((h e).1, t ++ (h e).2) := by
  rcases hhe : h e with ⟨r2, t2⟩
  simp [catchM, hhe]

/-- Every chain call in a `bindM` trace comes from one of the parts. -/
theorem bindM_trace_forall {α β : Type} {P : ChainCall → Prop}
    (x : TraceM α) (f : α → TraceM β)
    (hx : ∀ ev ∈ x.2, P ev) (hf : ∀ a, ∀ ev ∈ (f a).2, P ev) :
    ∀ ev ∈ (bindM x f).2, P ev := by
  rcases x with ⟨rx, tx⟩
  cases rx with
  | error e => simpa [bindM] using hx
  | ok a =>
    rw [bindM_mk_ok]
    intro ev hev
    rcases List.mem_append.mp hev with h1 | h2
    · exact hx ev h1
    · exact hf a ev h2

/-- Every chain call in a `catchM` trace comes from the body or the
handler. -/
theorem catchM_trace_forall {α : Type} {P : ChainCall → Prop}
    (x : TraceM α) (h : String → TraceM α)
    (hx : ∀ ev ∈ x.2, P ev) (hh : ∀ e, ∀ ev ∈ (h e).2, P ev) :
    ∀ ev ∈ (catchM x h).2, P ev := by
  rcases x with ⟨rx, tx⟩
  cases rx with
  | ok a => simpa [catchM] using hx
  | error e =>
    rw [catchM_mk_error]
    intro ev hev
    rcases List.mem_append.mp hev with h1 | h2
    · exact hx ev h1
    · exact hh e ev h2

theorem callM_trace_forall {α : Type} {P : ChainCall → Prop}
    (ev0 : ChainCall) (r : Except String α) (h : P ev0) :
    ∀ ev ∈ (callM ev0 r).2, P ev := by
  intro ev hev
  simp [callM] at hev
  simpa [hev] using h

theorem pureM_trace_forall {α : Type} {P : ChainCall → Prop} (a : α) :
    ∀ ev ∈ (pureM a).2, P ev := by
  intro ev hev
  simp [pureM] at hev

theorem throwM_trace_forall {α : Type} {P : ChainCall → Prop} (e : String) :
    ∀ ev ∈ (throwM e : TraceM α).2, P ev := by
  intro ev hev
  simp [throwM] at hev

/-- Whether a chain call is a Tier-2 submission (a vote transaction paid
and signed by the user). -/
def isDirectUserSubmit : ChainCall → Bool
  | ChainCall.submitDirectCastVote _ => true
  | _ => false

/-- Whether a chain call is a Tier-3 submission (a vote cast from the
admin wallet's own identity or a vote-on-behalf entry point). -/
def isAdminProxySubmit : ChainCall → Bool
  | ChainCall.submitAdminCastVote _ => true
  | _ => false

/-- `handleVoteError` only ever labels a failure `validation` or
`system-error`. -/
theorem handleVoteError_method (msg : String) :
    (handleVoteError msg).method = "validation" ∨
      (handleVoteError msg).method = "system-error" := by
  unfold handleVoteError
  split_ifs <;> simp

/-- Membership in a `bindM` trace decomposes into the two parts. -/
theorem bindM_trace_mem {α β : Type} {x : TraceM α} {f : α → TraceM β}
    {ev : ChainCall} (h : ev ∈ (bindM x f).2) :
    ev ∈ x.2 ∨ ∃ a, ev ∈ (f a).2 := by
  rcases x with ⟨rx, tx⟩
  cases rx with
  | error e => exact Or.inl (by simpa [bindM] using h)
  | ok a =>
    rw [bindM_mk_ok] at h
    rcases List.mem_append.mp h with h1 | h2
    · exact Or.inl h1
    · exact Or.inr ⟨a, h2⟩

/-- Membership in a `catchM` trace decomposes into body and handler. -/
theorem catchM_trace_mem {α : Type} {x : TraceM α} {h : String → TraceM α}
    {ev : ChainCall} (hm : ev ∈ (catchM x h).2) :
    ev ∈ x.2 ∨ ∃ e, ev ∈ (h e).2 := by
  rcases x with ⟨rx, tx⟩
  cases rx with
  | ok a => exact Or.inl (by simpa [catchM] using hm)
  | error e =>
    rw [catchM_mk_error] at hm
    rcases List.mem_append.mp hm with h1 | h2
    · exact Or.inl h1
    · exact Or.inr ⟨e, h2⟩

/-- The body trace is a prefix of the `catchM` trace. -/
theorem catchM_trace_mem_of_body {α : Type} {x : TraceM α}
    {h : String → TraceM α} {ev : ChainCall} (hm : ev ∈ x.2) :
    ev ∈ (catchM x h).2 := by
  rcases x with ⟨rx, tx⟩
  cases rx with
  | ok a => simpa [catchM] using hm
  | error e =>
    rw [catchM_mk_error]
    exact List.mem_append.mpr (Or.inl hm)

/-- Every call in the vote gas-fallback section is a gas estimation or a
`castVoteBySig` submission from the admin wallet. -/
theorem gasFallbackVoteSubmit_trace (env : VoteEnv) :
    ∀ ev ∈ (gasFallbackVoteSubmit env).2,
      ev = ChainCall.estimateGas ∨
        ∃ g, ev = ChainCall.submitCastVoteBySig env.adminAddress g := by
  intro ev hev
  rcases catchM_trace_mem hev with h1 | ⟨e, h2⟩
  · rcases bindM_trace_mem h1 with h3 | ⟨g, h4⟩
    · simp [callM] at h3
      simp [h3]
    · simp [callM] at h4
      exact Or.inr ⟨_, h4⟩
  · simp [callM] at h2
    exact Or.inr ⟨_, h2⟩

/-- A fixed pattern inside a string survives appending more text. -/
theorem strIncludes_append_right (a s pat : String)
    (h : strIncludes a pat = true) : strIncludes (a ++ s) pat = true := by
  unfold strIncludes jsIncludes at h ⊢
  apply decide_eq_true
  have h2 := of_decide_eq_true h
  have he : (a ++ s).toList = a.toList ++ s.toList := by simp [String.toList]
  rw [he]
  exact h2.trans (List.prefix_append a.toList s.toList).isInfix

/-- Characters of a collapsed string come from the input or are spaces. -/
theorem mem_collapseWs (x : Char) :
    ∀ l : List Char, x ∈ collapseWs l → x ∈ l ∨ x = ' ' := by
  intro l
  induction l with
  | nil => intro h; simp [collapseWs] at h
  | cons c rest ih =>
    intro h
    cases rest with
    | nil =>
      simp [collapseWs] at h
      by_cases hw : isJsWs c = true
      · simp [hw] at h; exact Or.inr h
      · simp [hw] at h; exact Or.inl (by simp [h])
    | cons d rest2 =>
      rw [collapseWs] at h
      by_cases hw : (isJsWs c && isJsWs d) = true
      · rw [if_pos hw] at h
        rcases ih h with h1 | h1
        · exact Or.inl (List.mem_cons_of_mem _ h1)
        · exact Or.inr h1
      · rw [if_neg hw] at h
        rcases List.mem_cons.mp h with h1 | h1
        · by_cases hwc : isJsWs c = true
          · rw [h1, if_pos hwc]; exact Or.inr rfl
          · rw [h1, if_neg hwc]; exact Or.inl (List.mem_cons_self _ _)
        · rcases ih h1 with h2 | h2
          · exact Or.inl (List.mem_cons_of_mem _ h2)
          · exact Or.inr h2

/-- Whitespace collapsing never grows the string. -/
theorem collapseWs_length :
    ∀ l : List Char, (collapseWs l).length ≤ l.length := by
  intro l
  induction l with
  | nil => simp [collapseWs]
  | cons c rest ih =>
    cases rest with
    | nil => simp [collapseWs]
    | cons d rest2 =>
      rw [collapseWs]
      by_cases hw : (isJsWs c && isJsWs d) = true
      · rw [if_pos hw]
        exact le_trans ih (by simp)
      · rw [if_neg hw]
        simpa using ih

/-- Characters of a trimmed string come from the input. -/
theorem mem_jsTrim (x : Char) (l : List Char) (h : x ∈ jsTrim l) : x ∈ l := by
  unfold jsTrim at h
  rw [List.mem_reverse] at h
  have h2 := (List.dropWhile_sublist _).subset h
  rw [List.mem_reverse] at h2
  exact (List.dropWhile_sublist _).subset h2

/-- Trimming never grows the string. -/
theorem jsTrim_length (l : List Char) : (jsTrim l).length ≤ l.length := by
  unfold jsTrim
  calc ((l.dropWhile isJsWs).reverse.dropWhile isJsWs).reverse.length
      = ((l.dropWhile isJsWs).reverse.dropWhile isJsWs).length :=
        List.length_reverse _
    _ ≤ (l.dropWhile isJsWs).reverse.length :=
        (List.dropWhile_sublist _).length_le
    _ = (l.dropWhile isJsWs).length := List.length_reverse _
    _ ≤ l.length := (List.dropWhile_sublist _).length_le

/-- No character of the sanitizer's Markdown class (other than the space
it is replaced with, and those appearing in the falsy-input fallback text)
survives sanitization. -/
theorem sanitize_no_special (msg : List Char) (n : Nat) (c : Char)
    (hc : isSpecialMd c = true) (hspace : c ≠ ' ')
    (hnotErr : c ∉ "Unknown error".toList) :
    c ∉ sanitizeErrorForTelegram msg n := by
  unfold sanitizeErrorForTelegram
  by_cases he : msg.isEmpty
  · rw [if_pos he]; exact hnotErr
  · rw [if_neg he]
    intro hmem
    have h1 := mem_jsTrim c _ hmem
    rcases mem_collapseWs c _ h1 with h2 | h2
    · unfold blankSpecialMd at h2
      rcases List.mem_map.mp h2 with ⟨d, _, hd⟩
      by_cases hsd : isSpecialMd d = true
      · rw [if_pos hsd] at hd; exact hspace hd.symm
      · rw [if_neg hsd] at hd
        rw [hd] at hsd
        exact hsd hc
    · exact hspace h2

/-- For nonempty input, the sanitizer's output never exceeds the
configured maximum length. -/
theorem sanitize_length (msg : List Char) (n : Nat) (hne : msg ≠ []) :
    (sanitizeErrorForTelegram msg n).length ≤ n := by
  unfold sanitizeErrorForTelegram
  rw [if_neg (by simpa using hne)]
  have hchain : ∀ x : List Char,
      (jsTrim (collapseWs (blankSpecialMd x))).length ≤ x.length := by
    intro x
    calc (jsTrim (collapseWs (blankSpecialMd x))).length
        ≤ (collapseWs (blankSpecialMd x)).length := jsTrim_length _
      _ ≤ (blankSpecialMd x).length := collapseWs_length _
      _ = x.length := by simp [blankSpecialMd]
  set s3 := replUrls (replBrackets (replBraces msg)) with hs3
  unfold jsTruncate
  by_cases ht : n < s3.length
  · rw [if_pos ht]
    by_cases h3 : 3 ≤ n
    · calc (jsTrim (collapseWs (blankSpecialMd
            (s3.take (n - 3) ++ ['.', '.', '.'])))).length
          ≤ (s3.take (n - 3) ++ ['.', '.', '.']).length := hchain _
        _ = (s3.take (n - 3)).length + 3 := by simp
        _ ≤ (n - 3) + 3 := by
            have := List.length_take (n - 3) s3
            omega
        _ ≤ n := by omega
    · have h0 : n - 3 = 0 := by omega
      rw [h0]
      simp only [List.take_zero, List.nil_append]
      have hz : (jsTrim (collapseWs (blankSpecialMd ['.', '.', '.']))).length = 0 := by
        decide
      omega
  · rw [if_neg ht]
    calc (jsTrim (collapseWs (blankSpecialMd s3))).length ≤ s3.length := hchain _
      _ ≤ n := by omega

/-- Every chain call the enabled vote pipeline can ever make is outside
the Tier-2/Tier-3 submission classes. -/
theorem voteOnProposalM_trace_classes (env : VoteEnv) (user : String)
    (pid vt : Nat) :
    ∀ ev ∈ (voteOnProposalM env user pid vt).2,
      isDirectUserSubmit ev = false ∧ isAdminProxySubmit ev = false := by
  apply catchM_trace_forall
  · apply bindM_trace_forall
    · apply bindM_trace_forall
      · exact callM_trace_forall _ _ (by simp [isDirectUserSubmit, isAdminProxySubmit])
      · intro st
        by_cases h : st = 1 <;> simp [h, pureM, throwM]
    · intro u
      apply bindM_trace_forall
      · apply bindM_trace_forall
        · apply catchM_trace_forall
          · exact callM_trace_forall _ _ (by simp [isDirectUserSubmit, isAdminProxySubmit])
          · intro e
            by_cases h : (strIncludes e "already cast vote" || strIncludes e "AlreadyCast" ||
                strIncludes e "already voted") = true <;>
              simp [h, pureM, throwM]
        · intro u2
          apply bindM_trace_forall
          · exact callM_trace_forall _ _ (by simp [isDirectUserSubmit, isAdminProxySubmit])
          · intro b
            apply bindM_trace_forall
            · exact callM_trace_forall _ _ (by simp [isDirectUserSubmit, isAdminProxySubmit])
            · intro p
              by_cases h : p = 0 <;> simp [h, pureM, throwM]
      · intro u3
        apply catchM_trace_forall
        · apply bindM_trace_forall
          · apply catchM_trace_forall
            · apply bindM_trace_forall
              · exact callM_trace_forall _ _ (by simp [isDirectUserSubmit, isAdminProxySubmit])
              · intro cid
                apply bindM_trace_forall
                · exact callM_trace_forall _ _ (by simp [isDirectUserSubmit, isAdminProxySubmit])
                · intro gn
                  apply bindM_trace_forall
                  · exact callM_trace_forall _ _ (by simp [isDirectUserSubmit, isAdminProxySubmit])
                  · intro u4
                    apply bindM_trace_forall
                    · intro ev hev
                      rcases gasFallbackVoteSubmit_trace env ev hev with h | ⟨g, h⟩ <;>
                        simp [h, isDirectUserSubmit, isAdminProxySubmit]
                    · intro u5
                      apply bindM_trace_forall
                      · exact callM_trace_forall _ _ (by simp [isDirectUserSubmit, isAdminProxySubmit])
                      · intro receipt
                        simp [pureM]
            · intro e
              by_cases h : strIncludes e "execution reverted" = true <;>
                simp [h, throwM]
          · intro m
            simp [pureM]
        · intro e
          by_cases h : (strIncludes e "already cast" || strIncludes e "AlreadyCast" ||
              strIncludes e "already voted") = true <;>
            simp [h, pureM]
  · intro e
    simp [pureM]

/-- A service configuration with all four blockchain settings present. -/
def cfgEnabled : ServiceConfig :=
  ⟨some "https://sepolia.example", some "0xToken", some "0xGovernor",
   some "0xadminkey"⟩

/-- A service configuration whose admin key is still the placeholder value
the constructor treats as missing configuration. -/
def cfgDisabled : ServiceConfig :=
  ⟨some "https://sepolia.example", some "0xToken", some "0xGovernor",
   some "your_admin_wallet_private_key"⟩

/-- A chain environment in which every call succeeds: the proposal is
Active, the voter has not voted and held 250 voting power at the snapshot
block 4096. -/
def envBase : VoteEnv :=
  { stateCall := Except.ok 1, staticCastVote := Except.ok (),
    snapshotCall := Except.ok 4096, votesAt := fun _ => Except.ok 250,
    balanceOf := 0, chainIdCall := Except.ok 11155111,
    governorNameCall := Except.ok "AlphinGovernor",
    gasEstimateCall := Except.ok 90000,
    submitWithGas := fun _ => Except.ok (),
    waitCall := Except.ok ⟨"0xtxhash", 777, 1⟩,
    governorAddress := "0xGovernor", adminAddress := "0xAdmin",
    now := 1700000000000 }

/-- `envBase` with a deterministically throwing Tier 1: gas estimation
fails and every submission attempt is rejected by the node. -/
def envTier1Throws : VoteEnv :=
  { envBase with gasEstimateCall := Except.error "cannot estimate gas",
                 submitWithGas := fun _ => Except.error "nonce too low" }

/-- `envBase` with a failing primary state read. -/
def envStateError : VoteEnv :=
  { envBase with stateCall := Except.error "RPC timeout" }

/-- `envBase` where the dry-run vote reverts with an already-voted
message. -/
def envAlreadyVoted : VoteEnv :=
  { envBase with
      staticCastVote := Except.error "execution reverted: user has already voted" }

/-- `envBase` with the proposal in the Defeated state (ordinal 3). -/
def envDefeated : VoteEnv :=
  { envBase with stateCall := Except.ok 3 }

/-- `envBase` where the voter had zero power at the snapshot although the
current token balance is large. -/
def envZeroPower : VoteEnv :=
  { envBase with votesAt := fun _ => Except.ok 0, balanceOf := 1000 }

/-- A delegation environment in which every call succeeds. -/
def delegEnvBase : DelegEnv :=
  { enabled := true, nonceCall := Except.ok 0, nowMs := 1700000000000,
    chainIdCall := Except.ok 11155111,
    tokenNameCall := Except.ok "AlphinDAO Token",
    gasEstimateCall := Except.ok 80000,
    submitWithGas := fun _ => Except.ok (),
    waitCall := Except.ok ⟨"0xdelegtx", 778, 1⟩,
    tokenAddress := "0xToken", adminAddress := "0xAdmin" }

/-- A state environment whose primary read fails over an ABI mismatch,
with readable raw fields: voting period [100, 200], tallies 500 for / 300
against, current block 150. -/
def stateEnvFallback : StateEnv :=
  { enabled := true, hasGovernorAbi := true,
    stateCall := Except.error "ABI mismatch",
    proposalsCall := Except.ok ⟨100, 200, 500, 300⟩,
    currentBlockCall := Except.ok 150 }

/-- A raw error of the spec's sanitization scenario: an embedded JSON
object, a URL, and 500 characters of noise. -/
def c9RawError : List Char :=
  ("Error: processing \x7b\"code\":-32000,\"data\":\"0xdeadbeef\"\x7d at " ++
   "https://rpc.example.com/v1?key=abc123 raw response follows ").toList ++
  List.replicate 500 'z'

/-- C1 counterexample: at a concrete environment where validation passes
and Tier 1 (the meta-transaction) throws deterministically, the relay
performs no Tier-2 (direct user transaction) and no Tier-3
(admin-assisted) attempt at all — the claim's required Tier-2 attempt
never happens — and returns `all-methods-failed` directly. -/
theorem voteRelay_tier2_not_attempted :
    ((validateProposalState envTier1Throws).1 = Except.ok () ∧
     (validateUserVotingPower envTier1Throws "0xVoter").1 = Except.ok () ∧
     (voteWithMetaTransaction envTier1Throws "0xVoter" 12 1).1 =
       Except.error "nonce too low") ∧
    (voteOnProposal cfgEnabled envTier1Throws "0xVoter" 12 1).2.countP
      (fun ev => isDirectUserSubmit ev) = 0 ∧
    (voteOnProposal cfgEnabled envTier1Throws "0xVoter" 12 1).2.countP
      (fun ev => isAdminProxySubmit ev) = 0 ∧
    (voteOnProposal cfgEnabled envTier1Throws "0xVoter" 12 1).1.method =
      "all-methods-failed" := by
  decide

/-- C1 (amended): for every vote attempt that passes validation, if
Tier 1 (the meta-transaction vote) throws, the relay attempts no further
tier: it returns a failure result directly (method `validation` when the
error matches an already-voted pattern, `all-methods-failed` otherwise),
and its trace contains no Tier-2 and no Tier-3 submission. -/
theorem voteRelay_no_lower_tiers (cfg : ServiceConfig) (env : VoteEnv)
    (user : String) (pid vt : Nat) (e : String)
    (hen : blockchainEnabled cfg = true)
    (hval1 : (validateProposalState env).1 = Except.ok ())
    (hval2 : (validateUserVotingPower env user).1 = Except.ok ())
    (hmeta : (voteWithMetaTransaction env user pid vt).1 = Except.error e) :
    (voteOnProposal cfg env user pid vt).1.success = false ∧
    ((voteOnProposal cfg env user pid vt).1.method = "validation" ∨
      (voteOnProposal cfg env user pid vt).1.method = "all-methods-failed") ∧
    (∀ ev ∈ (voteOnProposal cfg env user pid vt).2,
      isDirectUserSubmit ev = false ∧ isAdminProxySubmit ev = false) := by
  have htr : ∀ ev ∈ (voteOnProposal cfg env user pid vt).2,
      isDirectUserSubmit ev = false ∧ isAdminProxySubmit ev = false := by
    rw [voteOnProposal, if_neg (by simp [hen])]
    rcases hr : voteOnProposalM env user pid vt with ⟨res, tr⟩
    have hcl := voteOnProposalM_trace_classes env user pid vt
    rw [hr] at hcl
    cases res <;> simpa using hcl
  have key : (voteOnProposal cfg env user pid vt).1 =
      (if (strIncludes e "already cast" || strIncludes e "AlreadyCast" ||
          strIncludes e "already voted") = true then
        { success := false, method := "validation", txHash := none,
          blockNumber := none,
          error := some "You have already voted on this proposal" }
      else
        { success := false, method := "all-methods-failed", txHash := none,
          blockNumber := none, error := some e }) := by
    rw [voteOnProposal, if_neg (by simp [hen])]
    rcases hv1 : validateProposalState env with ⟨rv1, t1⟩
    have h1 : rv1 = Except.ok () := by rw [hv1] at hval1; exact hval1
    subst h1
    rcases hv2 : validateUserVotingPower env user with ⟨rv2, t2⟩
    have h2 : rv2 = Except.ok () := by rw [hv2] at hval2; exact hval2
    subst h2
    rcases hm : voteWithMetaTransaction env user pid vt with ⟨rm, tm⟩
    have h3 : rm = Except.error e := by rw [hm] at hmeta; exact hmeta
    subst h3
    rw [voteOnProposalM, hv1, bindM_mk_ok]
    simp only [hv2, bindM_mk_ok, hm, bindM_mk_error, catchM_mk_error]
    by_cases hp : (strIncludes e "already cast" || strIncludes e "AlreadyCast" ||
        strIncludes e "already voted") = true
    · rw [if_pos hp]
      simp [pureM, catchM, hp]
    · rw [if_neg hp]
      simp [pureM, catchM, hp]
  refine ⟨?_, ?_, htr⟩
  · rw [key]
    by_cases hp : (strIncludes e "already cast" || strIncludes e "AlreadyCast" ||
        strIncludes e "already voted") = true
    · rw [if_pos hp]
    · rw [if_neg hp]
  · rw [key]
    by_cases hp : (strIncludes e "already cast" || strIncludes e "AlreadyCast" ||
        strIncludes e "already voted") = true
    · rw [if_pos hp]; left; rfl
    · rw [if_neg hp]; right; rfl

/-- Witness for `voteRelay_no_lower_tiers` at the concrete
Tier-1-throwing environment. -/
theorem voteRelay_no_lower_tiers_witness :
    blockchainEnabled cfgEnabled = true ∧
    (validateProposalState envTier1Throws).1 = Except.ok () ∧
    (validateUserVotingPower envTier1Throws "0xVoter").1 = Except.ok () ∧
    (voteWithMetaTransaction envTier1Throws "0xVoter" 12 1).1 =
      Except.error "nonce too low" ∧
    ((voteOnProposal cfgEnabled envTier1Throws "0xVoter" 12 1).1.success = false ∧
     ((voteOnProposal cfgEnabled envTier1Throws "0xVoter" 12 1).1.method =
        "validation" ∨
      (voteOnProposal cfgEnabled envTier1Throws "0xVoter" 12 1).1.method =
        "all-methods-failed") ∧
     (∀ ev ∈ (voteOnProposal cfgEnabled envTier1Throws "0xVoter" 12 1).2,
       isDirectUserSubmit ev = false ∧ isAdminProxySubmit ev = false)) :=
  ⟨by decide, by decide, by decide, by decide,
   voteRelay_no_lower_tiers cfgEnabled envTier1Throws "0xVoter" 12 1
     "nonce too low" (by decide) (by decide) (by decide) (by decide)⟩

/-- C2 counterexample: when the proposal-state read throws an
unclassified RPC error, the relay's result carries method
`system-error`, which is outside the spec's six-value enumeration. -/
theorem voteResult_method_offspec :
    (voteOnProposal cfgEnabled envStateError "0xVoter" 12 1).1.method =
      "system-error" ∧
    "system-error" ∉
      (["meta-transaction", "direct-user-vote", "admin-assisted",
        "admin-direct-vote", "validation", "all-methods-failed"] :
        List String) := by
  decide

/-- C2 (amended): every result of `voteOnProposal` has its method drawn
from the five values the code can actually produce: `simulation`
(blockchain disabled), `meta-transaction`, `validation`,
`all-methods-failed` and `system-error`; the spec's `direct-user-vote`,
`admin-assisted` and `admin-direct-vote` are never produced. -/
theorem voteResult_method_enum (cfg : ServiceConfig) (env : VoteEnv)
    (user : String) (pid vt : Nat) :
    (voteOnProposal cfg env user pid vt).1.method ∈
      (["simulation", "meta-transaction", "validation", "all-methods-failed",
        "system-error"] : List String) := by
  have hhve : ∀ m : String, (handleVoteError m).method ∈
      (["simulation", "meta-transaction", "validation", "all-methods-failed",
        "system-error"] : List String) := by
    intro m
    rcases handleVoteError_method m with h | h <;> simp [h]
  by_cases hen : blockchainEnabled cfg = false
  · simp [voteOnProposal, hen]
  · rw [voteOnProposal, if_neg hen]
    rcases hv1 : validateProposalState env with ⟨rv1, tv1⟩
    rw [voteOnProposalM, hv1]
    cases rv1 with
    | error e =>
      rw [bindM_mk_error, catchM_mk_error]
      simp [pureM, hhve]
    | ok u =>
      rw [bindM_mk_ok]
      rcases hv2 : validateUserVotingPower env user with ⟨rv2, tv2⟩
      cases rv2 with
      | error e =>
        rw [bindM_mk_error, catchM_mk_error]
        simp [pureM, hhve]
      | ok u2 =>
        rw [bindM_mk_ok]
        rcases hm : voteWithMetaTransaction env user pid vt with ⟨rm, tm⟩
        cases rm with
        | ok m =>
          rw [bindM_mk_ok]
          simp [pureM, catchM]
        | error e =>
          rw [bindM_mk_error, catchM_mk_error]
          by_cases hp : (strIncludes e "already cast" || strIncludes e "AlreadyCast" ||
              strIncludes e "already voted") = true
          · rw [if_pos hp]
            simp [pureM, catchM]
          · rw [if_neg hp]
            simp [pureM, catchM]

/-- C3: for a voter the chain reports as having already voted (the
dry-run `castVote` reverts with an already-voted pattern) on an Active
proposal, `castVote`/`voteOnProposal` with any vote type returns
`{success: false, method: "validation", error: "You have already voted on
this proposal"}`. -/
theorem castVote_double_vote (cfg : ServiceConfig) (env : VoteEnv)
    (user : String) (pid vt : Nat) (m : String)
    (hen : blockchainEnabled cfg = true)
    (hstate : env.stateCall = Except.ok 1)
    (hrevert : env.staticCastVote = Except.error m)
    (hpat : (strIncludes m "already cast vote" || strIncludes m "AlreadyCast" ||
      strIncludes m "already voted") = true) :
    (voteOnProposal cfg env user pid vt).1 =
      { success := false, method := "validation", txHash := none,
        blockNumber := none,
        error := some "You have already voted on this proposal" } := by
  have hd := hpat
  simp at hd
  simp [voteOnProposal, hen, voteOnProposalM, validateProposalState, hstate,
    validateUserVotingPower, simulateVote, hrevert, hd, callM,
    throwM, pureM, catchM_mk_error, catchM_mk_ok, bindM_mk_error, bindM_mk_ok]
  decide

/-- Witness for `castVote_double_vote` at a concrete environment, with
vote type 2 (Abstain). -/
theorem castVote_double_vote_witness :
    blockchainEnabled cfgEnabled = true ∧
    envAlreadyVoted.stateCall = Except.ok 1 ∧
    envAlreadyVoted.staticCastVote =
      Except.error "execution reverted: user has already voted" ∧
    (strIncludes "execution reverted: user has already voted" "already cast vote" ||
     strIncludes "execution reverted: user has already voted" "AlreadyCast" ||
     strIncludes "execution reverted: user has already voted" "already voted") = true ∧
    (voteOnProposal cfgEnabled envAlreadyVoted "0xVoter" 12 2).1 =
      { success := false, method := "validation", txHash := none,
        blockNumber := none,
        error := some "You have already voted on this proposal" } :=
  ⟨by decide, by decide, by decide, by decide,
   castVote_double_vote cfgEnabled envAlreadyVoted "0xVoter" 12 2
     "execution reverted: user has already voted"
     (by decide) (by decide) (by decide) (by decide)⟩

/-- C4: for every proposal whose state is not Active, `voteOnProposal`
returns `{success: false, method: "validation"}`, its trace is exactly
the single state read, and in particular no EIP-712 signature is ever
constructed during the attempt. -/
theorem castVote_inactive_proposal (cfg : ServiceConfig) (env : VoteEnv)
    (user : String) (pid vt st : Nat) (hen : blockchainEnabled cfg = true)
    (hstate : env.stateCall = Except.ok st) (hne : st ≠ 1) :
    (voteOnProposal cfg env user pid vt).1 =
      { success := false, method := "validation", txHash := none,
        blockNumber := none,
        error := some "This proposal is not currently active for voting" } ∧
    (voteOnProposal cfg env user pid vt).2 = [ChainCall.readProposalState] ∧
    (∀ s d v, ChainCall.signTypedData s d v ∉
      (voteOnProposal cfg env user pid vt).2) := by
  have hmsg : ∀ s : String,
      handleVoteError ("Proposal is not in active state. Current state: " ++ s) =
      { success := false, method := "validation", txHash := none,
        blockNumber := none,
        error := some "This proposal is not currently active for voting" } := by
    intro s
    unfold handleVoteError
    rw [if_pos]
    apply strIncludes_append_right
    decide
  have hmain : (voteOnProposal cfg env user pid vt).1 =
      { success := false, method := "validation", txHash := none,
        blockNumber := none,
        error := some "This proposal is not currently active for voting" } ∧
      (voteOnProposal cfg env user pid vt).2 = [ChainCall.readProposalState] := by
    simp [voteOnProposal, hen, voteOnProposalM, validateProposalState, hstate,
      hne, throwM, pureM, catchM_mk_error, bindM_mk_error, hmsg]
  refine ⟨hmain.1, hmain.2, ?_⟩
  intro s d v hmem
  rw [hmain.2] at hmem
  simp at hmem

/-- Witness for `castVote_inactive_proposal` at the Defeated proposal. -/
theorem castVote_inactive_proposal_witness :
    blockchainEnabled cfgEnabled = true ∧
    envDefeated.stateCall = Except.ok 3 ∧ (3 : Nat) ≠ 1 ∧
    ((voteOnProposal cfgEnabled envDefeated "0xVoter" 12 1).1 =
      { success := false, method := "validation", txHash := none,
        blockNumber := none,
        error := some "This proposal is not currently active for voting" } ∧
     (voteOnProposal cfgEnabled envDefeated "0xVoter" 12 1).2 =
       [ChainCall.readProposalState] ∧
     (∀ s d v, ChainCall.signTypedData s d v ∉
       (voteOnProposal cfgEnabled envDefeated "0xVoter" 12 1).2)) :=
  ⟨by decide, by decide, by decide,
   castVote_inactive_proposal cfgEnabled envDefeated "0xVoter" 12 1 3
     (by decide) (by decide) (by decide)⟩

/-- C5: the voting-power check reads the snapshot block, then the voting
power at exactly that block — its trace is those two reads and nothing
else, in particular no current-balance read — and it fails precisely when
that historical power is zero, whatever the current balance. -/
theorem checkVotingPower_snapshot_only (env : VoteEnv) (voter : String)
    (b p : Nat) (hsnap : env.snapshotCall = Except.ok b)
    (hvotes : env.votesAt b = Except.ok p) :
    (checkVotingPowerAtSnapshot env voter).2 =
      [ChainCall.readSnapshot, ChainCall.readVotes voter b] ∧
    ((checkVotingPowerAtSnapshot env voter).1 = Except.ok () ↔ p ≠ 0) ∧
    (p = 0 → (checkVotingPowerAtSnapshot env voter).1 =
      Except.error ("User had no voting power at the proposal snapshot. " ++
        "Make sure tokens were delegated before the proposal was created.")) ∧
    (∀ a, ChainCall.readBalance a ∉ (checkVotingPowerAtSnapshot env voter).2) := by
  by_cases hp : p = 0 <;>
    simp [checkVotingPowerAtSnapshot, hsnap, hvotes, hp, callM, throwM, pureM,
      bindM_mk_error, bindM_mk_ok]

/-- Witness for `checkVotingPower_snapshot_only`: zero power at the
snapshot fails the check although the current balance is 1000. -/
theorem checkVotingPower_snapshot_only_witness :
    envZeroPower.snapshotCall = Except.ok 4096 ∧
    envZeroPower.votesAt 4096 = Except.ok 0 ∧
    envZeroPower.balanceOf = 1000 ∧
    ((checkVotingPowerAtSnapshot envZeroPower "0xVoter").2 =
      [ChainCall.readSnapshot, ChainCall.readVotes "0xVoter" 4096] ∧
     ((checkVotingPowerAtSnapshot envZeroPower "0xVoter").1 = Except.ok () ↔
       (0 : Nat) ≠ 0) ∧
     ((0 : Nat) = 0 → (checkVotingPowerAtSnapshot envZeroPower "0xVoter").1 =
       Except.error ("User had no voting power at the proposal snapshot. " ++
         "Make sure tokens were delegated before the proposal was created.")) ∧
     (∀ a, ChainCall.readBalance a ∉
       (checkVotingPowerAtSnapshot envZeroPower "0xVoter").2)) :=
  ⟨by decide, by decide, by decide,
   checkVotingPower_snapshot_only envZeroPower "0xVoter" 4096 0
     (by decide) (by decide)⟩

/-- C6: the Tier-1 meta-transaction builds the EIP-712 payload over the
governor's domain (name = the governor's on-chain name, version `"1"`,
the network chain id, verifying contract = the governor address) with the
`Ballot {proposalId, support}` value where support is the vote type, the
voter signs it, and every signature constructed during the attempt is by
the voter's key with exactly that domain and value — never another
signer such as the relay wallet. -/
theorem metaTransaction_ballot_signature (env : VoteEnv) (user : String)
    (pid vt cid : Nat) (gn : String)
    (hc : env.chainIdCall = Except.ok cid)
    (hn : env.governorNameCall = Except.ok gn) :
    ChainCall.signTypedData user
      { name := gn, version := "1", chainId := cid,
        verifyingContract := env.governorAddress }
      (TypedValue.ballot pid vt) ∈ (voteWithMetaTransaction env user pid vt).2 ∧
    (∀ ev ∈ (voteWithMetaTransaction env user pid vt).2,
      ∀ s d v, ev = ChainCall.signTypedData s d v →
        s = user ∧
        d = { name := gn, version := "1", chainId := cid,
              verifyingContract := env.governorAddress } ∧
        v = TypedValue.ballot pid vt) := by
  constructor
  · apply catchM_trace_mem_of_body
    simp [voteWithMetaTransactionBody, hc, hn, callM, bindM_mk_ok, pureM]
  · intro ev hev s d v heq
    subst heq
    rcases catchM_trace_mem hev with hbody | ⟨e, hh⟩
    · rw [voteWithMetaTransactionBody] at hbody
      simp only [hc, hn, bindM_call] at hbody
      simp only [callM, List.mem_cons] at hbody
      rcases hbody with h1 | h2
      · exact absurd h1 (by simp)
      · rcases h2 with h1 | h2
        · exact absurd h1 (by simp)
        · rcases h2 with h1 | h2
          · injection h1 with hs hd hv
            exact ⟨hs, hd, hv⟩
          · rcases bindM_trace_mem h2 with h3 | ⟨u, h4⟩
            · have := gasFallbackVoteSubmit_trace env _ h3
              rcases this with h5 | ⟨g, h5⟩ <;> simp at h5
            · rcases hw : env.waitCall with e2 | r2 <;> simp [hw, pureM] at h4
    · by_cases hrev : strIncludes e "execution reverted" = true <;>
        simp [hrev, throwM] at hh

/-- Witness for `metaTransaction_ballot_signature` at the concrete
environment. -/
theorem metaTransaction_ballot_signature_witness :
    envBase.chainIdCall = Except.ok 11155111 ∧
    envBase.governorNameCall = Except.ok "AlphinGovernor" ∧
    (ChainCall.signTypedData "0xVoter"
      { name := "AlphinGovernor", version := "1", chainId := 11155111,
        verifyingContract := envBase.governorAddress }
      (TypedValue.ballot 12 1) ∈
        (voteWithMetaTransaction envBase "0xVoter" 12 1).2 ∧
     (∀ ev ∈ (voteWithMetaTransaction envBase "0xVoter" 12 1).2,
       ∀ s d v, ev = ChainCall.signTypedData s d v →
         s = "0xVoter" ∧
         d = { name := "AlphinGovernor", version := "1", chainId := 11155111,
               verifyingContract := envBase.governorAddress } ∧
         v = TypedValue.ballot 12 1)) :=
  ⟨by decide, by decide,
   metaTransaction_ballot_signature envBase "0xVoter" 12 1 11155111
     "AlphinGovernor" (by decide) (by decide)⟩

/-- C7 (code bug): the delegation payload does bind
`{delegatee, nonce, expiry}` under the token contract's domain and is
submitted by the relay wallet through `delegateBySig`, but the signature
is produced by the relay (admin) wallet's key, not the holder's: with
delegator `0xUser` distinct from the admin wallet, the only signing event
in the trace is by `0xAdmin`. -/
theorem delegateBySig_signed_by_admin_wallet :
    "0xUser" ≠ delegEnvBase.adminAddress ∧
    ChainCall.signTypedData "0xAdmin"
      { name := "AlphinDAO Token", version := "1", chainId := 11155111,
        verifyingContract := "0xToken" }
      (TypedValue.delegation "0xUser" 0 1700003600) ∈
      (delegateVotesBySig delegEnvBase "0xUser" "0xUser").2 ∧
    ((delegateVotesBySig delegEnvBase "0xUser" "0xUser").2.all fun ev =>
      match ev with
      | ChainCall.signTypedData s _ _ => decide (s = "0xAdmin")
      | _ => true) = true ∧
    ChainCall.submitDelegateBySig "0xAdmin" 96000 ∈
      (delegateVotesBySig delegEnvBase "0xUser" "0xUser").2 ∧
    (delegateVotesBySig delegEnvBase "0xUser" "0xUser").1.status =
      "success" := by
  decide

/-- C8: when the primary state read errors and the raw proposal fields
are readable, the secondary path infers `Pending` before the start block,
`Active` within the voting window, and past the window `Succeeded`
exactly when the for-tally exceeds the against-tally, else `Defeated`. -/
theorem getProposalState_secondary_inference (env : StateEnv)
    (p : RawProposal) (cur : Nat) (e : String)
    (hen : env.enabled = true) (habi : env.hasGovernorAbi = true)
    (hprim : env.stateCall = Except.error e)
    (hsec : env.proposalsCall = Except.ok p)
    (hcur : env.currentBlockCall = Except.ok cur) :
    (cur < p.startBlock → getProposalState env = "Pending") ∧
    (p.startBlock ≤ cur → cur ≤ p.endBlock → getProposalState env = "Active") ∧
    (p.startBlock ≤ cur → p.endBlock < cur → p.againstVotes < p.forVotes →
      getProposalState env = "Succeeded") ∧
    (p.startBlock ≤ cur → p.endBlock < cur → p.forVotes ≤ p.againstVotes →
      getProposalState env = "Defeated") := by
  have hred : getProposalState env =
      (if cur < p.startBlock then "Pending"
       else if cur ≥ p.startBlock ∧ cur ≤ p.endBlock then "Active"
       else if p.forVotes > p.againstVotes then "Succeeded" else "Defeated") := by
    rw [getProposalState, if_neg (by simp [hen]), if_neg (by simp [habi]),
      hprim, hsec, hcur]
  rw [hred]
  refine ⟨fun h1 => ?_, fun h1 h2 => ?_, fun h1 h2 h3 => ?_, fun h1 h2 h3 => ?_⟩
  · rw [if_pos h1]
  · rw [if_neg (by omega), if_pos ⟨by omega, h2⟩]
  · rw [if_neg (by omega), if_neg (by omega), if_pos (by omega)]
  · rw [if_neg (by omega), if_neg (by omega), if_neg (by omega)]

/-- Witness for `getProposalState_secondary_inference`: a mid-window
current block is inferred `Active`. -/
theorem getProposalState_secondary_inference_witness :
    stateEnvFallback.enabled = true ∧
    stateEnvFallback.hasGovernorAbi = true ∧
    stateEnvFallback.stateCall = Except.error "ABI mismatch" ∧
    stateEnvFallback.proposalsCall = Except.ok ⟨100, 200, 500, 300⟩ ∧
    stateEnvFallback.currentBlockCall = Except.ok 150 ∧
    getProposalState stateEnvFallback = "Active" :=
  ⟨by decide, by decide, by decide, by decide, by decide,
   (getProposalState_secondary_inference stateEnvFallback
     ⟨100, 200, 500, 300⟩ 150 "ABI mismatch"
     (by decide) (by decide) (by decide) (by decide) (by decide)).2.1
     (by decide) (by decide)⟩

/-- C9: for every raw error string and configured maximum, the sanitized
output contains no `{` and no `[`; for every nonempty raw error the
output length never exceeds the maximum; and on the spec's concrete
scenario — a raw error with an embedded JSON object, a URL, and 500
characters of noise, at the default maximum 100 — the output contains no
`http` substring. -/
theorem sanitizeErrorForTelegram_spec :
    (∀ (msg : List Char) (n : Nat),
      '{' ∉ sanitizeErrorForTelegram msg n ∧
      '[' ∉ sanitizeErrorForTelegram msg n) ∧
    (∀ (msg : List Char) (n : Nat), msg ≠ [] →
      (sanitizeErrorForTelegram msg n).length ≤ n) ∧
    (jsIncludes c9RawError ("\x7b\"code\"").toList = true ∧
     jsIncludes c9RawError "https://".toList = true ∧
     500 ≤ c9RawError.length ∧
     jsIncludes (sanitizeErrorForTelegram c9RawError 100) "http".toList =
       false ∧
     jsIncludes (sanitizeErrorForTelegram c9RawError 100) "\x7b".toList = false ∧
     jsIncludes (sanitizeErrorForTelegram c9RawError 100) "[".toList = false ∧
     (sanitizeErrorForTelegram c9RawError 100).length ≤ 100) := by
  refine ⟨fun msg n => ⟨?_, ?_⟩, fun msg n hne => sanitize_length msg n hne, ?_⟩
  · exact sanitize_no_special msg n '{' (by decide) (by decide) (by decide)
  · exact sanitize_no_special msg n '[' (by decide) (by decide) (by decide)
  · set_option maxRecDepth 10000 in decide

/-- Witness for `sanitizeErrorForTelegram_spec`'s length bound at the
concrete scenario input. -/
theorem sanitizeErrorForTelegram_spec_witness :
    c9RawError ≠ [] ∧ (sanitizeErrorForTelegram c9RawError 100).length ≤ 100 :=
  ⟨by decide,
   sanitizeErrorForTelegram_spec.2.1 c9RawError 100 (by decide)⟩

/-- C10 (implicit): with blockchain configuration missing or invalid
(`blockchainEnabled` false), `voteOnProposal` reports a successful vote —
`{success: true, method: "simulation"}` with a fabricated `mock-` hash —
for every proposal id, voter and vote type, while performing no
validation check and no chain call at all. -/
theorem voteOnProposal_disabled_simulation (cfg : ServiceConfig)
    (env : VoteEnv) (user : String) (pid vt : Nat)
    (hdis : blockchainEnabled cfg = false) :
    voteOnProposal cfg env user pid vt =
      ({ success := true, method := "simulation",
         txHash := some ("mock-" ++ Nat.repr env.now),
         blockNumber := none, error := none }, []) := by
  simp [voteOnProposal, hdis]

/-- Witness for `voteOnProposal_disabled_simulation` at the placeholder
admin key configuration. -/
theorem voteOnProposal_disabled_simulation_witness :
    blockchainEnabled cfgDisabled = false ∧
    voteOnProposal cfgDisabled envBase "0xVoter" 12 1 =
      ({ success := true, method := "simulation",
         txHash := some ("mock-" ++ Nat.repr 1700000000000),
         blockNumber := none, error := none }, []) :=
  ⟨by decide,
   voteOnProposal_disabled_simulation cfgDisabled envBase "0xVoter" 12 1
     (by decide)⟩
